import Mathlib

/-!
Shallow embedding of the core logic of the "Casa Inteligente Multimodal"
Streamlit app (src/app.py): the per-room device state, the state-to-JSON
payload projection `publish_casa_json`, the free-text command interpreter
`ejecutar_comando`, and the gesture-label handling of the "Gestos" page.

UI rendering, the MQTT transport and the TensorFlow classifier are external
collaborators: the transport is modelled as an abstract sink whose outcome
(published / not confirmed / exception raised) is a parameter, and the
classifier label arrives as a plain string together with its confidence score.

Command texts are modelled as Lean `String`s; `comando.lower().strip()` is
modelled by ASCII lowercasing plus whitespace trimming over the character
list, and Python's substring test `x in comando` by a contiguous-sublist
check over character lists.
-/

/-- Per-room device state, mirroring the dictionaries created at
`st.session_state.devices` initialisation (src/app.py lines 176-192).
Python integers are modelled as `Int`. -/
structure DeviceState where
  luz : Bool
  brillo : Int
  ventilador : Int
  puerta_cerrada : Bool
  presencia : Bool
deriving DecidableEq, Repr

/-- The two rooms of the house; the state dictionary always holds exactly
these two keys ("sala" and "habitacion"). -/
inductive Room where
  | sala
  | habitacion
deriving DecidableEq, Repr

/-- The whole-house state: one `DeviceState` per room. -/
structure HouseState where
  sala : DeviceState
  habitacion : DeviceState
deriving DecidableEq, Repr

/-- `devices[room]` lookup. -/
def getRoom (h : HouseState) : Room → DeviceState
  | .sala => h.sala
  | .habitacion => h.habitacion

/-- In-place update of one room's state, `devices[room][...] = ...`. -/
def updateRoom (h : HouseState) (r : Room) (f : DeviceState → DeviceState) : HouseState :=
  match r with
  | .sala => { h with sala := f h.sala }
  | .habitacion => { h with habitacion := f h.habitacion }

/-- Default state of a single room at session start (src/app.py
lines 177-191): light off, brightness 50, fan 0, door closed, no presence. -/
def estado_inicial : DeviceState :=
  { luz := false, brillo := 50, ventilador := 0, puerta_cerrada := true, presencia := false }

/-- Initial `st.session_state.devices`: both rooms at the default state. -/
def casa_inicial : HouseState :=
  { sala := estado_inicial, habitacion := estado_inicial }

/-- Does `pat` occur at the head of `s`? (helper for the substring test). -/
def empiezaCon : List Char → List Char → Bool
  | [], _ => true
  | _ :: _, [] => false
  | a :: as, b :: bs => a == b && empiezaCon as bs

/-- Python's `pat in s`: does `pat` occur as a contiguous substring of `s`? -/
def apareceEn (pat : List Char) : List Char → Bool
  | [] => empiezaCon pat []
  | c :: rest => empiezaCon pat (c :: rest) || apareceEn pat rest

/-- `x in comando` for a single phrase given as a string literal. -/
def contiene (comando : List Char) (pat : String) : Bool :=
  apareceEn pat.toList comando

/-- `any(x in comando for x in pats)`. -/
def algunaDe (comando : List Char) (pats : List String) : Bool :=
  pats.any (fun p => contiene comando p)

/-- Strip leading and trailing whitespace (Python `str.strip()`). -/
def recortar (l : List Char) : List Char :=
  ((l.dropWhile Char.isWhitespace).reverse.dropWhile Char.isWhitespace).reverse

/-- `comando.lower().strip()` (src/app.py line 200), as a character list. -/
def normalizar (s : String) : List Char :=
  recortar (s.toList.map Char.toLower)

/-- The JSON status object built by `publish_casa_json` (src/app.py
lines 113-118): exactly the four fields Act1, Act2, Vent, Analog. -/
structure StatusPayload where
  Act1 : String
  Act2 : String
  Vent : Int
  Analog : Int
deriving DecidableEq, Repr

/-- The payload projection of `publish_casa_json` (src/app.py lines 110-118):
Act1 from the sala light, Act2 from the habitacion light, Vent from the sala
fan, Analog 0/100 from the sala door. -/
def casa_payload (h : HouseState) : StatusPayload :=
  { Act1 := if h.sala.luz then "ON" else "OFF"
    Act2 := if h.habitacion.luz then "ON" else "OFF"
    Vent := h.sala.ventilador
    Analog := if h.sala.puerta_cerrada then 0 else 100 }

/-- Outcome of the MQTT publish attempt inside the `try` block of
`publish_casa_json` (src/app.py lines 120-136): the message was confirmed
(`result.is_published()` true), it was not confirmed, or an exception was
raised during `publish`/`wait_for_publish`. -/
inductive SinkResult where
  | published
  | unconfirmed
  | raised
deriving DecidableEq, Repr

/-- `publish_casa_json` (src/app.py lines 89-136) with the external transport
made explicit: `mqtt_available` is the import flag, `client` the result of
`get_mqtt_client()`, and `sink` the broker's response to publishing the
payload. Returns `true` exactly when the message was confirmed; every failure
path returns `false` (the Python function catches its own exceptions). -/
def publish_casa_json (mqtt_available : Bool) (client : Option Unit)
    (sink : StatusPayload → SinkResult) (h : HouseState) : Bool :=
  if mqtt_available = false then false
  else
    match client with
    | none => false
    | some _ =>
      match sink (casa_payload h) with
      | .published => true
      | .unconfirmed => false
      | .raised => false

/-- Room detection of `ejecutar_comando` (src/app.py lines 203-209):
"sala" wins, else any habitacion synonym, else no room. -/
def detectar_ambiente (comando : List Char) : Option Room :=
  if contiene comando "sala" then some .sala
  else if algunaDe comando ["habitacion", "habitación", "cuarto", "dormitorio"] then
    some .habitacion
  else none

/-- src/app.py lines 215-217: light-on phrases set `dev["luz"] = True`. -/
def paso_encender_luz (comando : List Char) (room : Room) (st : HouseState × Bool) :
    HouseState × Bool :=
  if algunaDe comando ["encender luz", "enciende luz", "luz on", "prende luz"] then
    (updateRoom st.1 room (fun d => { d with luz := true }), true)
  else st

/-- src/app.py lines 218-220: light-off phrases set `dev["luz"] = False`. -/
def paso_apagar_luz (comando : List Char) (room : Room) (st : HouseState × Bool) :
    HouseState × Bool :=
  if algunaDe comando ["apagar luz", "apaga luz", "luz off"] then
    (updateRoom st.1 room (fun d => { d with luz := false }), true)
  else st

/-- src/app.py lines 223-225: fan-up, clamped at 3. -/
def paso_subir_vent (comando : List Char) (room : Room) (st : HouseState × Bool) :
    HouseState × Bool :=
  if algunaDe comando ["subir ventilador", "sube ventilador", "aumenta ventilador"] then
    (updateRoom st.1 room (fun d => { d with ventilador := min 3 (d.ventilador + 1) }), true)
  else st

/-- src/app.py lines 226-228: fan-down, clamped at 0. -/
def paso_bajar_vent (comando : List Char) (room : Room) (st : HouseState × Bool) :
    HouseState × Bool :=
  if algunaDe comando ["bajar ventilador", "baja ventilador", "reduce ventilador"] then
    (updateRoom st.1 room (fun d => { d with ventilador := max 0 (d.ventilador - 1) }), true)
  else st

/-- src/app.py lines 229-231: fan-off sets the speed to 0. -/
def paso_apagar_vent (comando : List Char) (room : Room) (st : HouseState × Bool) :
    HouseState × Bool :=
  if algunaDe comando ["apagar ventilador", "apaga ventilador"] then
    (updateRoom st.1 room (fun d => { d with ventilador := 0 }), true)
  else st

/-- src/app.py lines 232-234: fan-on only fires when the current speed is 0,
and then sets it to 1 (the `and dev["ventilador"] == 0` guard). -/
def paso_encender_vent (comando : List Char) (room : Room) (st : HouseState × Bool) :
    HouseState × Bool :=
  if algunaDe comando ["encender ventilador", "enciende ventilador"] ∧
      (getRoom st.1 room).ventilador = 0 then
    (updateRoom st.1 room (fun d => { d with ventilador := 1 }), true)
  else st

/-- src/app.py lines 237-239: door-open writes `devices["sala"]` directly,
whatever the detected room. -/
def paso_abrir_puerta (comando : List Char) (st : HouseState × Bool) :
    HouseState × Bool :=
  if algunaDe comando ["abrir puerta", "abre puerta"] then
    ({ st.1 with sala := { st.1.sala with puerta_cerrada := false } }, true)
  else st

/-- src/app.py lines 240-242: door-close writes `devices["sala"]` directly,
whatever the detected room. -/
def paso_cerrar_puerta (comando : List Char) (st : HouseState × Bool) :
    HouseState × Bool :=
  if algunaDe comando ["cerrar puerta", "cierra puerta"] then
    ({ st.1 with sala := { st.1.sala with puerta_cerrada := true } }, true)
  else st

/-- The body of `ejecutar_comando` after room detection (src/app.py
lines 211-242): the eight independent phrase checks in source order, threading
the state and the `cambio` flag. -/
def aplicar_pasos (comando : List Char) (room : Room) (house : HouseState) :
    HouseState × Bool :=
  paso_cerrar_puerta comando
    (paso_abrir_puerta comando
      (paso_encender_vent comando room
        (paso_apagar_vent comando room
          (paso_bajar_vent comando room
            (paso_subir_vent comando room
              (paso_apagar_luz comando room
                (paso_encender_luz comando room (house, false))))))))

/-- Observable result of `ejecutar_comando`: the ambiguous-room warning and
early return (lines 207-209), a successful mutation followed by a publish
attempt whose boolean outcome is recorded (lines 244-248), or the
"no recognized command" information message (lines 249-250). -/
inductive CmdResult where
  | ambiguous
  | executed (room : Room) (publish_ok : Bool)
  | noCommand (room : Room)
deriving DecidableEq, Repr

/-- `ejecutar_comando` (src/app.py lines 198-250): normalise the text, detect
the room, apply the phrase steps, and publish only when something changed. -/
def ejecutar_comando (mqtt_available : Bool) (client : Option Unit)
    (sink : StatusPayload → SinkResult) (house : HouseState) (comando0 : String) :
    HouseState × CmdResult :=
  let comando := normalizar comando0
  match detectar_ambiente comando with
  | none => (house, .ambiguous)
  | some room =>
    let st := aplicar_pasos comando room house
    if st.2 then
      (st.1, .executed room (publish_casa_json mqtt_available client sink st.1))
    else
      (st.1, .noCommand room)

/-- The four output classes of the gesture model (src/app.py line 155). -/
def TM_CLASSES : List String := ["luz_on", "luz_off", "puerta_abierta", "puerta_cerrada"]

/-- The gesture-label handling of the "Gestos" page (src/app.py
lines 612-630): an if/elif table over the class name mutating only the sala,
with the classifier confidence `prob` carried along (it is displayed but never
consulted). Returns the new state and the `cambio` flag. -/
def apply_gesture (clase : String) (prob : ℚ) (house : HouseState) :
    HouseState × Bool :=
  if clase = "luz_on" then
    ({ house with sala := { house.sala with luz := true } }, true)
  else if clase = "luz_off" then
    ({ house with sala := { house.sala with luz := false } }, true)
  else if clase = "puerta_abierta" then
    ({ house with sala := { house.sala with puerta_cerrada := false } }, true)
  else if clase = "puerta_cerrada" then
    ({ house with sala := { house.sala with puerta_cerrada := true } }, true)
  else (house, false)

/-- Fields `ejecutar_comando` never writes: brightness and presence of both
rooms, and the habitacion's own door flag (the door phrases write the sala). -/
def Cosmetics (h h' : HouseState) : Prop :=
  h'.sala.brillo = h.sala.brillo ∧
  h'.sala.presencia = h.sala.presencia ∧
  h'.habitacion.brillo = h.habitacion.brillo ∧
  h'.habitacion.presencia = h.habitacion.presencia ∧
  h'.habitacion.puerta_cerrada = h.habitacion.puerta_cerrada

instance (h h' : HouseState) : Decidable (Cosmetics h h') := by
  unfold Cosmetics; infer_instance

/-- Both fans within the hardware range 0..3. -/
def VentOk (h : HouseState) : Prop :=
  0 ≤ h.sala.ventilador ∧ h.sala.ventilador ≤ 3 ∧
  0 ≤ h.habitacion.ventilador ∧ h.habitacion.ventilador ≤ 3

instance (h : HouseState) : Decidable (VentOk h) := by
  unfold VentOk; infer_instance

/-- What a single interpreter step is allowed to change when the detected room
is `r`: cosmetic fields stay, a sala command leaves the habitacion alone, and
a habitacion command leaves the sala's light and fan alone (its door may still
change: the door phrases are wired to the sala). -/
def Conserva (r : Room) (h h' : HouseState) : Prop :=
  Cosmetics h h' ∧
  (r = .sala → h'.habitacion = h.habitacion) ∧
  (r = .habitacion → h'.sala.luz = h.sala.luz ∧ h'.sala.ventilador = h.sala.ventilador)

instance (r : Room) (h h' : HouseState) : Decidable (Conserva r h h') := by
  unfold Conserva; infer_instance

/-- Running a list of text commands in order, keeping only the house state
(each command goes through the full `ejecutar_comando` pipeline). -/
def ejecutar_lista (mqtt_available : Bool) (client : Option Unit)
    (sink : StatusPayload → SinkResult) (house : HouseState) (cmds : List String) :
    HouseState :=
  cmds.foldl (fun h c => (ejecutar_comando mqtt_available client sink h c).1) house

theorem conserva_refl (r : Room) (h : HouseState) : Conserva r h h :=
  ⟨⟨rfl, rfl, rfl, rfl, rfl⟩, fun _ => rfl, fun _ => ⟨rfl, rfl⟩⟩

theorem conserva_trans {r : Room} {h1 h2 h3 : HouseState}
    (a : Conserva r h1 h2) (b : Conserva r h2 h3) : Conserva r h1 h3 := by
  obtain ⟨⟨a1, a2, a3, a4, a5⟩, a6, a7⟩ := a
  obtain ⟨⟨b1, b2, b3, b4, b5⟩, b6, b7⟩ := b
  exact ⟨⟨b1.trans a1, b2.trans a2, b3.trans a3, b4.trans a4, b5.trans a5⟩,
    fun hr => (b6 hr).trans (a6 hr),
    fun hr => ⟨(b7 hr).1.trans (a7 hr).1, (b7 hr).2.trans (a7 hr).2⟩⟩

theorem conserva_encender_luz (c : List Char) (r : Room) (st : HouseState × Bool) :
    Conserva r st.1 (paso_encender_luz c r st).1 := by
  unfold paso_encender_luz
  split
  · cases r <;> simp [Conserva, Cosmetics, updateRoom]
  · exact conserva_refl r st.1

theorem conserva_apagar_luz (c : List Char) (r : Room) (st : HouseState × Bool) :
    Conserva r st.1 (paso_apagar_luz c r st).1 := by
  unfold paso_apagar_luz
  split
  · cases r <;> simp [Conserva, Cosmetics, updateRoom]
  · exact conserva_refl r st.1

theorem conserva_subir_vent (c : List Char) (r : Room) (st : HouseState × Bool) :
    Conserva r st.1 (paso_subir_vent c r st).1 := by
  unfold paso_subir_vent
  split
  · cases r <;> simp [Conserva, Cosmetics, updateRoom]
  · exact conserva_refl r st.1

theorem conserva_bajar_vent (c : List Char) (r : Room) (st : HouseState × Bool) :
    Conserva r st.1 (paso_bajar_vent c r st).1 := by
  unfold paso_bajar_vent
  split
  · cases r <;> simp [Conserva, Cosmetics, updateRoom]
  · exact conserva_refl r st.1

theorem conserva_apagar_vent (c : List Char) (r : Room) (st : HouseState × Bool) :
    Conserva r st.1 (paso_apagar_vent c r st).1 := by
  unfold paso_apagar_vent
  split
  · cases r <;> simp [Conserva, Cosmetics, updateRoom]
  · exact conserva_refl r st.1

theorem conserva_encender_vent (c : List Char) (r : Room) (st : HouseState × Bool) :
    Conserva r st.1 (paso_encender_vent c r st).1 := by
  unfold paso_encender_vent
  split
  · cases r <;> simp [Conserva, Cosmetics, updateRoom]
  · exact conserva_refl r st.1

theorem conserva_abrir_puerta (c : List Char) (r : Room) (st : HouseState × Bool) :
    Conserva r st.1 (paso_abrir_puerta c st).1 := by
  unfold paso_abrir_puerta
  split
  · cases r <;> simp [Conserva, Cosmetics]
  · exact conserva_refl r st.1

theorem conserva_cerrar_puerta (c : List Char) (r : Room) (st : HouseState × Bool) :
    Conserva r st.1 (paso_cerrar_puerta c st).1 := by
  unfold paso_cerrar_puerta
  split
  · cases r <;> simp [Conserva, Cosmetics]
  · exact conserva_refl r st.1

theorem conserva_aplicar_pasos (c : List Char) (r : Room) (house : HouseState) :
    Conserva r house (aplicar_pasos c r house).1 := by
  unfold aplicar_pasos
  exact conserva_trans (conserva_trans (conserva_trans (conserva_trans (conserva_trans
    (conserva_trans (conserva_trans (conserva_encender_luz _ _ _)
      (conserva_apagar_luz _ _ _)) (conserva_subir_vent _ _ _)) (conserva_bajar_vent _ _ _))
    (conserva_apagar_vent _ _ _)) (conserva_encender_vent _ _ _))
    (conserva_abrir_puerta _ _ _)) (conserva_cerrar_puerta _ _ _)

theorem ventok_encender_luz (c : List Char) (r : Room) (st : HouseState × Bool)
    (h : VentOk st.1) : VentOk (paso_encender_luz c r st).1 := by
  unfold paso_encender_luz
  split
  · cases r <;> simpa [VentOk, updateRoom] using h
  · exact h

theorem ventok_apagar_luz (c : List Char) (r : Room) (st : HouseState × Bool)
    (h : VentOk st.1) : VentOk (paso_apagar_luz c r st).1 := by
  unfold paso_apagar_luz
  split
  · cases r <;> simpa [VentOk, updateRoom] using h
  · exact h

theorem ventok_subir_vent (c : List Char) (r : Room) (st : HouseState × Bool)
    (h : VentOk st.1) : VentOk (paso_subir_vent c r st).1 := by
  unfold paso_subir_vent
  split
  · unfold VentOk updateRoom at *
    cases r <;> simp at * <;> omega
  · exact h

theorem ventok_bajar_vent (c : List Char) (r : Room) (st : HouseState × Bool)
    (h : VentOk st.1) : VentOk (paso_bajar_vent c r st).1 := by
  unfold paso_bajar_vent
  split
  · unfold VentOk updateRoom at *
    cases r <;> simp at * <;> omega
  · exact h

theorem ventok_apagar_vent (c : List Char) (r : Room) (st : HouseState × Bool)
    (h : VentOk st.1) : VentOk (paso_apagar_vent c r st).1 := by
  unfold paso_apagar_vent
  split
  · unfold VentOk updateRoom at *
    cases r <;> simp at * <;> omega
  · exact h

theorem ventok_encender_vent (c : List Char) (r : Room) (st : HouseState × Bool)
    (h : VentOk st.1) : VentOk (paso_encender_vent c r st).1 := by
  unfold paso_encender_vent
  split
  · unfold VentOk updateRoom at *
    cases r <;> simp at * <;> omega
  · exact h

theorem ventok_abrir_puerta (c : List Char) (st : HouseState × Bool)
    (h : VentOk st.1) : VentOk (paso_abrir_puerta c st).1 := by
  unfold paso_abrir_puerta
  split
  · simpa [VentOk] using h
  · exact h

theorem ventok_cerrar_puerta (c : List Char) (st : HouseState × Bool)
    (h : VentOk st.1) : VentOk (paso_cerrar_puerta c st).1 := by
  unfold paso_cerrar_puerta
  split
  · simpa [VentOk] using h
  · exact h

theorem ventok_aplicar_pasos (c : List Char) (r : Room) (house : HouseState)
    (h : VentOk house) : VentOk (aplicar_pasos c r house).1 := by
  unfold aplicar_pasos
  exact ventok_cerrar_puerta _ _ (ventok_abrir_puerta _ _ (ventok_encender_vent _ _ _
    (ventok_apagar_vent _ _ _ (ventok_bajar_vent _ _ _ (ventok_subir_vent _ _ _
      (ventok_apagar_luz _ _ _ (ventok_encender_luz _ _ _ h)))))))

theorem ejecutar_comando_eq (mq : Bool) (cl : Option Unit) (sink : StatusPayload → SinkResult)
    (house : HouseState) (cmd : String) :
    ejecutar_comando mq cl sink house cmd =
      match detectar_ambiente (normalizar cmd) with
      | none => (house, .ambiguous)
      | some room =>
        if (aplicar_pasos (normalizar cmd) room house).2 then
          ((aplicar_pasos (normalizar cmd) room house).1,
            .executed room
              (publish_casa_json mq cl sink (aplicar_pasos (normalizar cmd) room house).1))
        else ((aplicar_pasos (normalizar cmd) room house).1, .noCommand room) := rfl

theorem ejecutar_comando_fst (mq : Bool) (cl : Option Unit) (sink : StatusPayload → SinkResult)
    (house : HouseState) (cmd : String) :
    (ejecutar_comando mq cl sink house cmd).1 =
      match detectar_ambiente (normalizar cmd) with
      | none => house
      | some room => (aplicar_pasos (normalizar cmd) room house).1 := by
  rw [ejecutar_comando_eq]
  cases detectar_ambiente (normalizar cmd) with
  | none => rfl
  | some room => simp only; split <;> rfl

theorem ventok_ejecutar_comando (mq : Bool) (cl : Option Unit)
    (sink : StatusPayload → SinkResult) (house : HouseState) (cmd : String)
    (h : VentOk house) : VentOk (ejecutar_comando mq cl sink house cmd).1 := by
  rw [ejecutar_comando_fst]
  cases detectar_ambiente (normalizar cmd) with
  | none => exact h
  | some room => exact ventok_aplicar_pasos _ _ _ h

theorem ventok_ejecutar_lista (mq : Bool) (cl : Option Unit)
    (sink : StatusPayload → SinkResult) (house : HouseState) (cmds : List String)
    (h : VentOk house) : VentOk (ejecutar_lista mq cl sink house cmds) := by
  induction cmds generalizing house with
  | nil => exact h
  | cons c cs ih => exact ih _ (ventok_ejecutar_comando mq cl sink house c h)

theorem getRoom_updateRoom_same (h : HouseState) (r : Room) (f : DeviceState → DeviceState) :
    getRoom (updateRoom h r f) r = f (getRoom h r) := by
  cases r <;> rfl

theorem paso_encender_luz_id (c : List Char) (r : Room) (st : HouseState × Bool)
    (h : algunaDe c ["encender luz", "enciende luz", "luz on", "prende luz"] = false) :
    paso_encender_luz c r st = st := by
  unfold paso_encender_luz
  simp [h]

theorem paso_apagar_luz_id (c : List Char) (r : Room) (st : HouseState × Bool)
    (h : algunaDe c ["apagar luz", "apaga luz", "luz off"] = false) :
    paso_apagar_luz c r st = st := by
  unfold paso_apagar_luz
  simp [h]

theorem paso_subir_vent_id (c : List Char) (r : Room) (st : HouseState × Bool)
    (h : algunaDe c ["subir ventilador", "sube ventilador", "aumenta ventilador"] = false) :
    paso_subir_vent c r st = st := by
  unfold paso_subir_vent
  simp [h]

theorem paso_bajar_vent_id (c : List Char) (r : Room) (st : HouseState × Bool)
    (h : algunaDe c ["bajar ventilador", "baja ventilador", "reduce ventilador"] = false) :
    paso_bajar_vent c r st = st := by
  unfold paso_bajar_vent
  simp [h]

theorem paso_apagar_vent_id (c : List Char) (r : Room) (st : HouseState × Bool)
    (h : algunaDe c ["apagar ventilador", "apaga ventilador"] = false) :
    paso_apagar_vent c r st = st := by
  unfold paso_apagar_vent
  simp [h]

theorem paso_encender_vent_id (c : List Char) (r : Room) (st : HouseState × Bool)
    (h : algunaDe c ["encender ventilador", "enciende ventilador"] = false) :
    paso_encender_vent c r st = st := by
  unfold paso_encender_vent
  simp [h]

theorem paso_abrir_puerta_id (c : List Char) (st : HouseState × Bool)
    (h : algunaDe c ["abrir puerta", "abre puerta"] = false) :
    paso_abrir_puerta c st = st := by
  unfold paso_abrir_puerta
  simp [h]

theorem paso_cerrar_puerta_id (c : List Char) (st : HouseState × Bool)
    (h : algunaDe c ["cerrar puerta", "cierra puerta"] = false) :
    paso_cerrar_puerta c st = st := by
  unfold paso_cerrar_puerta
  simp [h]

theorem paso_cerrar_puerta_hit (c : List Char) (st : HouseState × Bool)
    (h : algunaDe c ["cerrar puerta", "cierra puerta"] = true) :
    paso_cerrar_puerta c st =
      ({ st.1 with sala := { st.1.sala with puerta_cerrada := true } }, true) := by
  unfold paso_cerrar_puerta
  simp [h]

theorem paso_abrir_puerta_hit (c : List Char) (st : HouseState × Bool)
    (h : algunaDe c ["abrir puerta", "abre puerta"] = true) :
    paso_abrir_puerta c st =
      ({ st.1 with sala := { st.1.sala with puerta_cerrada := false } }, true) := by
  unfold paso_abrir_puerta
  simp [h]

theorem paso_apagar_luz_hit (c : List Char) (r : Room) (st : HouseState × Bool)
    (h : algunaDe c ["apagar luz", "apaga luz", "luz off"] = true) :
    paso_apagar_luz c r st =
      (updateRoom st.1 r (fun d => { d with luz := false }), true) := by
  unfold paso_apagar_luz
  simp [h]

theorem luz_subir_vent (c : List Char) (r r' : Room) (st : HouseState × Bool) :
    (getRoom (paso_subir_vent c r st).1 r').luz = (getRoom st.1 r').luz := by
  unfold paso_subir_vent
  split
  · cases r <;> cases r' <;> rfl
  · rfl

theorem luz_bajar_vent (c : List Char) (r r' : Room) (st : HouseState × Bool) :
    (getRoom (paso_bajar_vent c r st).1 r').luz = (getRoom st.1 r').luz := by
  unfold paso_bajar_vent
  split
  · cases r <;> cases r' <;> rfl
  · rfl

theorem luz_apagar_vent (c : List Char) (r r' : Room) (st : HouseState × Bool) :
    (getRoom (paso_apagar_vent c r st).1 r').luz = (getRoom st.1 r').luz := by
  unfold paso_apagar_vent
  split
  · cases r <;> cases r' <;> rfl
  · rfl

theorem luz_encender_vent (c : List Char) (r r' : Room) (st : HouseState × Bool) :
    (getRoom (paso_encender_vent c r st).1 r').luz = (getRoom st.1 r').luz := by
  unfold paso_encender_vent
  split
  · cases r <;> cases r' <;> rfl
  · rfl

theorem luz_abrir_puerta (c : List Char) (r' : Room) (st : HouseState × Bool) :
    (getRoom (paso_abrir_puerta c st).1 r').luz = (getRoom st.1 r').luz := by
  unfold paso_abrir_puerta
  split
  · cases r' <;> rfl
  · rfl

theorem luz_cerrar_puerta (c : List Char) (r' : Room) (st : HouseState × Bool) :
    (getRoom (paso_cerrar_puerta c st).1 r').luz = (getRoom st.1 r').luz := by
  unfold paso_cerrar_puerta
  split
  · cases r' <;> rfl
  · rfl

theorem snd_subir_vent (c : List Char) (r : Room) (st : HouseState × Bool)
    (h : st.2 = true) : (paso_subir_vent c r st).2 = true := by
  unfold paso_subir_vent
  split <;> simp [h]

theorem snd_bajar_vent (c : List Char) (r : Room) (st : HouseState × Bool)
    (h : st.2 = true) : (paso_bajar_vent c r st).2 = true := by
  unfold paso_bajar_vent
  split <;> simp [h]

theorem snd_apagar_vent (c : List Char) (r : Room) (st : HouseState × Bool)
    (h : st.2 = true) : (paso_apagar_vent c r st).2 = true := by
  unfold paso_apagar_vent
  split <;> simp [h]

theorem snd_encender_vent (c : List Char) (r : Room) (st : HouseState × Bool)
    (h : st.2 = true) : (paso_encender_vent c r st).2 = true := by
  unfold paso_encender_vent
  split <;> simp [h]

theorem snd_abrir_puerta (c : List Char) (st : HouseState × Bool)
    (h : st.2 = true) : (paso_abrir_puerta c st).2 = true := by
  unfold paso_abrir_puerta
  split <;> simp [h]

theorem snd_cerrar_puerta (c : List Char) (st : HouseState × Bool)
    (h : st.2 = true) : (paso_cerrar_puerta c st).2 = true := by
  unfold paso_cerrar_puerta
  split <;> simp [h]

/-- C1: the published object has exactly the fields Act1, Act2, Vent, Analog;
Act1 is "ON" iff the sala light is on, Act2 is "ON" iff the habitacion light
is on, Vent is the sala fan speed, Analog is 0 when the sala door is closed
and 100 otherwise (never a third value), and the habitacion's door and fan
never influence the payload. -/
theorem c1_proyeccion_payload (h : HouseState) :
    ((casa_payload h).Act1 = if h.sala.luz then "ON" else "OFF") ∧
    ((casa_payload h).Act1 = "ON" ↔ h.sala.luz = true) ∧
    ((casa_payload h).Act2 = "ON" ↔ h.habitacion.luz = true) ∧
    (casa_payload h).Vent = h.sala.ventilador ∧
    ((casa_payload h).Analog = if h.sala.puerta_cerrada then 0 else 100) ∧
    ((casa_payload h).Analog = 0 ∨ (casa_payload h).Analog = 100) ∧
    ((casa_payload h).Analog = 0 ↔ h.sala.puerta_cerrada = true) ∧
    (∀ p : StatusPayload, p = ⟨p.Act1, p.Act2, p.Vent, p.Analog⟩) ∧
    (∀ d f, casa_payload
        { h with habitacion := { h.habitacion with puerta_cerrada := d, ventilador := f } } =
      casa_payload h) := by
  refine ⟨rfl, ?_, ?_, rfl, rfl, ?_, ?_, fun p => rfl, fun d f => rfl⟩
  · cases hl : h.sala.luz <;> simp [casa_payload, hl]
  · cases hl : h.habitacion.luz <;> simp [casa_payload, hl]
  · cases hd : h.sala.puerta_cerrada <;> simp [casa_payload, hd]
  · cases hd : h.sala.puerta_cerrada <;> simp [casa_payload, hd]

/-- C2: any command with a recognised room whose text carries a door phrase
drives the sala's door flag (close wins over open when both appear, being
checked later), and the habitacion's own door flag is never touched. -/
theorem c2_puerta_cableada_a_sala (mq : Bool) (cl : Option Unit)
    (sink : StatusPayload → SinkResult) (house : HouseState) (cmd : String) (room : Room)
    (hroom : detectar_ambiente (normalizar cmd) = some room) :
    (algunaDe (normalizar cmd) ["cerrar puerta", "cierra puerta"] = true →
      (ejecutar_comando mq cl sink house cmd).1.sala.puerta_cerrada = true) ∧
    (algunaDe (normalizar cmd) ["abrir puerta", "abre puerta"] = true →
      algunaDe (normalizar cmd) ["cerrar puerta", "cierra puerta"] = false →
      (ejecutar_comando mq cl sink house cmd).1.sala.puerta_cerrada = false) ∧
    (ejecutar_comando mq cl sink house cmd).1.habitacion.puerta_cerrada =
      house.habitacion.puerta_cerrada := by
  have hfst : (ejecutar_comando mq cl sink house cmd).1 =
      (aplicar_pasos (normalizar cmd) room house).1 := by
    rw [ejecutar_comando_fst, hroom]
  refine ⟨?_, ?_, ?_⟩
  · intro hcl
    rw [hfst]
    unfold aplicar_pasos
    rw [paso_cerrar_puerta_hit _ _ hcl]
  · intro hab hcl
    rw [hfst]
    unfold aplicar_pasos
    rw [paso_cerrar_puerta_id _ _ hcl, paso_abrir_puerta_hit _ _ hab]
  · rw [hfst]
    exact (conserva_aplicar_pasos _ _ _).1.2.2.2.2

/-- C2 witness: "cerrar puerta habitacion" closes the sala door and leaves the
habitacion door flag as it was. -/
theorem c2_testigo :
    (ejecutar_comando true (some ()) (fun _ => .published) casa_inicial
        "cerrar puerta habitacion").1.sala.puerta_cerrada = true ∧
    (ejecutar_comando true (some ()) (fun _ => .published) casa_inicial
        "cerrar puerta habitacion").1.habitacion.puerta_cerrada =
      casa_inicial.habitacion.puerta_cerrada :=
  ⟨(c2_puerta_cableada_a_sala true (some ()) (fun _ => .published) casa_inicial
      "cerrar puerta habitacion" .habitacion (by decide)).1 (by decide),
   (c2_puerta_cableada_a_sala true (some ()) (fun _ => .published) casa_inicial
      "cerrar puerta habitacion" .habitacion (by decide)).2.2⟩

/-- C3: starting from fans in range, any sequence of interpreted commands
keeps both fan speeds in 0..3, and the clamps are idempotent at the borders:
a fan-up step at speed 3 leaves 3, a fan-down step at speed 0 leaves 0. -/
theorem c3_rango_ventilador (mq : Bool) (cl : Option Unit)
    (sink : StatusPayload → SinkResult) (cmds : List String) (house : HouseState)
    (h : VentOk house) :
    VentOk (ejecutar_lista mq cl sink house cmds) ∧
    (∀ c r st, (getRoom st.1 r).ventilador = 3 →
      (getRoom (paso_subir_vent c r st).1 r).ventilador = 3) ∧
    (∀ c r st, (getRoom st.1 r).ventilador = 0 →
      (getRoom (paso_bajar_vent c r st).1 r).ventilador = 0) := by
  refine ⟨ventok_ejecutar_lista mq cl sink house cmds h, ?_, ?_⟩
  · intro c r st h3
    unfold paso_subir_vent
    split
    · rw [getRoom_updateRoom_same]
      show min 3 ((getRoom st.1 r).ventilador + 1) = 3
      rw [h3]
      decide
    · exact h3
  · intro c r st h0
    unfold paso_bajar_vent
    split
    · rw [getRoom_updateRoom_same]
      show max 0 ((getRoom st.1 r).ventilador - 1) = 0
      rw [h0]
      decide
    · exact h0

/-- C3 witness: four fan-up commands on the sala followed by a fan-down on the
habitacion keep both fans in range starting from the initial state. -/
theorem c3_testigo :
    VentOk casa_inicial ∧
    VentOk (ejecutar_lista true (some ()) (fun _ => .published) casa_inicial
      ["sube ventilador sala", "sube ventilador sala", "sube ventilador sala",
       "sube ventilador sala", "baja ventilador habitacion"]) :=
  ⟨by decide,
   (c3_rango_ventilador true (some ()) (fun _ => .published)
      ["sube ventilador sala", "sube ventilador sala", "sube ventilador sala",
       "sube ventilador sala", "baja ventilador habitacion"] casa_inicial (by decide)).1⟩

/-- C4: a normalised command containing neither "sala" nor any habitacion
synonym yields the ambiguous-room warning and returns with the whole state
untouched. -/
theorem c4_ambiente_ambiguo (mq : Bool) (cl : Option Unit)
    (sink : StatusPayload → SinkResult) (house : HouseState) (cmd : String)
    (h1 : contiene (normalizar cmd) "sala" = false)
    (h2 : algunaDe (normalizar cmd)
        ["habitacion", "habitación", "cuarto", "dormitorio"] = false) :
    ejecutar_comando mq cl sink house cmd = (house, .ambiguous) := by
  have hd : detectar_ambiente (normalizar cmd) = none := by
    unfold detectar_ambiente
    simp [h1, h2]
  rw [ejecutar_comando_eq, hd]

/-- C4 witness: "hola mundo" has no room token, so nothing changes. -/
theorem c4_testigo :
    ejecutar_comando true (some ()) (fun _ => .published) casa_inicial "hola mundo" =
      (casa_inicial, .ambiguous) :=
  c4_ambiente_ambiguo true (some ()) (fun _ => .published) casa_inicial "hola mundo"
    (by decide) (by decide)

/-- C5: every publish failure mode (transport missing, no client, message not
confirmed, exception during publishing) makes `publish_casa_json` return
false without raising, and the state an interpreted command produced does not
depend on the publish outcome at all. -/
theorem c5_fallo_publicacion (mq : Bool) (cl : Option Unit)
    (sink : StatusPayload → SinkResult) (house : HouseState) (cmd : String) :
    publish_casa_json false cl sink house = false ∧
    publish_casa_json mq none sink house = false ∧
    (sink (casa_payload house) = .unconfirmed → publish_casa_json mq cl sink house = false) ∧
    (sink (casa_payload house) = .raised → publish_casa_json mq cl sink house = false) ∧
    (∀ mq2 cl2 sink2, (ejecutar_comando mq cl sink house cmd).1 =
      (ejecutar_comando mq2 cl2 sink2 house cmd).1) := by
  refine ⟨by unfold publish_casa_json; simp, ?_, ?_, ?_, ?_⟩
  · unfold publish_casa_json
    split <;> rfl
  · intro hs
    unfold publish_casa_json
    split
    · rfl
    · cases cl with
      | none => rfl
      | some u => rw [hs]
  · intro hs
    unfold publish_casa_json
    split
    · rfl
    · cases cl with
      | none => rfl
      | some u => rw [hs]
  · intro mq2 cl2 sink2
    rw [ejecutar_comando_fst, ejecutar_comando_fst]

/-- C6: the phrase sets are checked independently in source order, so a
command that carries both a light-on and a light-off phrase applies both
mutations and the later one (light-off) determines the final state; the
command still counts as executed. -/
theorem c6_fases_independientes (mq : Bool) (cl : Option Unit)
    (sink : StatusPayload → SinkResult) (house : HouseState) (cmd : String) (room : Room)
    (hroom : detectar_ambiente (normalizar cmd) = some room)
    (hon : algunaDe (normalizar cmd)
        ["encender luz", "enciende luz", "luz on", "prende luz"] = true)
    (hoff : algunaDe (normalizar cmd) ["apagar luz", "apaga luz", "luz off"] = true) :
    (getRoom (ejecutar_comando mq cl sink house cmd).1 room).luz = false ∧
    ∃ b, (ejecutar_comando mq cl sink house cmd).2 = .executed room b := by
  have hsnd : (aplicar_pasos (normalizar cmd) room house).2 = true := by
    unfold aplicar_pasos
    apply snd_cerrar_puerta
    apply snd_abrir_puerta
    apply snd_encender_vent
    apply snd_apagar_vent
    apply snd_bajar_vent
    apply snd_subir_vent
    rw [paso_apagar_luz_hit _ _ _ hoff]
  constructor
  · rw [ejecutar_comando_fst, hroom]
    unfold aplicar_pasos
    rw [luz_cerrar_puerta, luz_abrir_puerta, luz_encender_vent, luz_apagar_vent,
      luz_bajar_vent, luz_subir_vent, paso_apagar_luz_hit _ _ _ hoff]
    rw [getRoom_updateRoom_same]
  · refine ⟨publish_casa_json mq cl sink (aplicar_pasos (normalizar cmd) room house).1, ?_⟩
    rw [ejecutar_comando_eq, hroom]
    simp [hsnd]

/-- C6 witness: a command holding both "enciende luz" and "apaga luz" for the
sala ends with the sala light off. -/
theorem c6_testigo :
    (getRoom (ejecutar_comando true (some ()) (fun _ => .published) casa_inicial
        "enciende luz y apaga luz en la sala").1 .sala).luz = false :=
  (c6_fases_independientes true (some ()) (fun _ => .published) casa_inicial
    "enciende luz y apaga luz en la sala" .sala (by decide) (by decide) (by decide)).1

/-- C7: each of the four gesture classes maps one-to-one onto its sala
mutation whatever the confidence value, any other label is a no-op, the
result never depends on the confidence, and the habitacion is never
touched. -/
theorem c7_gestos (clase : String) (prob : ℚ) (house : HouseState) :
    (clase = "luz_on" → apply_gesture clase prob house =
      ({ house with sala := { house.sala with luz := true } }, true)) ∧
    (clase = "luz_off" → apply_gesture clase prob house =
      ({ house with sala := { house.sala with luz := false } }, true)) ∧
    (clase = "puerta_abierta" → apply_gesture clase prob house =
      ({ house with sala := { house.sala with puerta_cerrada := false } }, true)) ∧
    (clase = "puerta_cerrada" → apply_gesture clase prob house =
      ({ house with sala := { house.sala with puerta_cerrada := true } }, true)) ∧
    (clase ∉ TM_CLASSES → apply_gesture clase prob house = (house, false)) ∧
    (∀ prob2, apply_gesture clase prob house = apply_gesture clase prob2 house) ∧
    (apply_gesture clase prob house).1.habitacion = house.habitacion := by
  refine ⟨?_, ?_, ?_, ?_, ?_, fun prob2 => rfl, ?_⟩
  · intro hc
    simp [apply_gesture, hc]
  · intro hc
    simp [apply_gesture, hc]
  · intro hc
    simp [apply_gesture, hc]
  · intro hc
    simp [apply_gesture, hc]
  · intro hc
    simp only [TM_CLASSES, List.mem_cons, List.not_mem_nil, or_false, not_or] at hc
    obtain ⟨n1, n2, n3, n4⟩ := hc
    simp [apply_gesture, n1, n2, n3, n4]
  · unfold apply_gesture
    split_ifs <;> rfl

/-- C8: the "encender ventilador" phrase sets the selected room's fan to 1
only from speed 0 and is a no-op at any other speed. -/
theorem c8_encender_ventilador (c : List Char) (r : Room) (st : HouseState × Bool)
    (hph : algunaDe c ["encender ventilador", "enciende ventilador"] = true) :
    ((getRoom st.1 r).ventilador = 0 →
      paso_encender_vent c r st =
        (updateRoom st.1 r (fun d => { d with ventilador := 1 }), true)) ∧
    ((getRoom st.1 r).ventilador ≠ 0 → paso_encender_vent c r st = st) := by
  constructor
  · intro h0
    unfold paso_encender_vent
    simp [hph, h0]
  · intro hne
    unfold paso_encender_vent
    simp [hph, hne]

/-- C8 witness: at fan speed 0 the phrase turns the sala fan to 1, and at
speed 2 it leaves the state untouched. -/
theorem c8_testigo :
    paso_encender_vent "enciende ventilador sala".toList .sala (casa_inicial, false) =
      (updateRoom casa_inicial .sala (fun d => { d with ventilador := 1 }), true) ∧
    paso_encender_vent "enciende ventilador sala".toList .sala
        ({ casa_inicial with sala := { estado_inicial with ventilador := 2 } }, false) =
      ({ casa_inicial with sala := { estado_inicial with ventilador := 2 } }, false) :=
  ⟨(c8_encender_ventilador "enciende ventilador sala".toList .sala
      (casa_inicial, false) (by decide)).1 (by decide),
   (c8_encender_ventilador "enciende ventilador sala".toList .sala
      ({ casa_inicial with sala := { estado_inicial with ventilador := 2 } }, false)
      (by decide)).2 (by decide)⟩

/-- C9: with a detected room but no matching phrase at all, the interpreter
leaves the state untouched and reports the no-command outcome, for every
publish sink (no publish is attempted). -/
theorem c9_sin_comando (mq : Bool) (cl : Option Unit)
    (sink : StatusPayload → SinkResult) (house : HouseState) (cmd : String) (room : Room)
    (hroom : detectar_ambiente (normalizar cmd) = some room)
    (h1 : algunaDe (normalizar cmd)
        ["encender luz", "enciende luz", "luz on", "prende luz"] = false)
    (h2 : algunaDe (normalizar cmd) ["apagar luz", "apaga luz", "luz off"] = false)
    (h3 : algunaDe (normalizar cmd)
        ["subir ventilador", "sube ventilador", "aumenta ventilador"] = false)
    (h4 : algunaDe (normalizar cmd)
        ["bajar ventilador", "baja ventilador", "reduce ventilador"] = false)
    (h5 : algunaDe (normalizar cmd) ["apagar ventilador", "apaga ventilador"] = false)
    (h6 : algunaDe (normalizar cmd) ["encender ventilador", "enciende ventilador"] = false)
    (h7 : algunaDe (normalizar cmd) ["abrir puerta", "abre puerta"] = false)
    (h8 : algunaDe (normalizar cmd) ["cerrar puerta", "cierra puerta"] = false) :
    ejecutar_comando mq cl sink house cmd = (house, .noCommand room) := by
  have hap : aplicar_pasos (normalizar cmd) room house = (house, false) := by
    unfold aplicar_pasos
    rw [paso_encender_luz_id _ _ _ h1, paso_apagar_luz_id _ _ _ h2,
      paso_subir_vent_id _ _ _ h3, paso_bajar_vent_id _ _ _ h4,
      paso_apagar_vent_id _ _ _ h5, paso_encender_vent_id _ _ _ h6,
      paso_abrir_puerta_id _ _ h7, paso_cerrar_puerta_id _ _ h8]
  rw [ejecutar_comando_eq, hroom]
  simp [hap]

/-- C9 witness: "sala por favor" names a room but no device phrase, so the
state is unchanged and the outcome is the no-command report. -/
theorem c9_testigo :
    ejecutar_comando true (some ()) (fun _ => .published) casa_inicial "sala por favor" =
      (casa_inicial, .noCommand .sala) :=
  c9_sin_comando true (some ()) (fun _ => .published) casa_inicial "sala por favor" .sala
    (by decide) (by decide) (by decide) (by decide) (by decide) (by decide) (by decide)
    (by decide) (by decide)

/-- C10: the interpreter never writes brightness or presence of either room
nor the habitacion's door flag; a sala command leaves the habitacion whole, a
habitacion command leaves the sala's light and fan alone (only its door may
move), and with no detected room nothing changes. -/
theorem c10_marco (mq : Bool) (cl : Option Unit) (sink : StatusPayload → SinkResult)
    (house : HouseState) (cmd : String) :
    Cosmetics house (ejecutar_comando mq cl sink house cmd).1 ∧
    (detectar_ambiente (normalizar cmd) = some .sala →
      (ejecutar_comando mq cl sink house cmd).1.habitacion = house.habitacion) ∧
    (detectar_ambiente (normalizar cmd) = some .habitacion →
      (ejecutar_comando mq cl sink house cmd).1.sala.luz = house.sala.luz ∧
      (ejecutar_comando mq cl sink house cmd).1.sala.ventilador = house.sala.ventilador) ∧
    (detectar_ambiente (normalizar cmd) = none →
      (ejecutar_comando mq cl sink house cmd).1 = house) := by
  cases hd : detectar_ambiente (normalizar cmd) with
  | none =>
    have hfst : (ejecutar_comando mq cl sink house cmd).1 = house := by
      rw [ejecutar_comando_fst, hd]
    refine ⟨?_, ?_, ?_, fun _ => hfst⟩
    · rw [hfst]
      exact ⟨rfl, rfl, rfl, rfl, rfl⟩
    · intro h
      cases h
    · intro h
      cases h
  | some r =>
    have hfst : (ejecutar_comando mq cl sink house cmd).1 =
        (aplicar_pasos (normalizar cmd) r house).1 := by
      rw [ejecutar_comando_fst, hd]
    have hc := conserva_aplicar_pasos (normalizar cmd) r house
    refine ⟨?_, ?_, ?_, ?_⟩
    · rw [hfst]
      exact hc.1
    · intro h
      injection h with hr
      subst hr
      rw [hfst]
      exact hc.2.1 rfl
    · intro h
      injection h with hr
      subst hr
      rw [hfst]
      exact hc.2.2 rfl
    · intro h
      cases h
